import Mathlib

/-!
Shallow embedding of src/mobingi/session/session.go (package session of
github.com/mobingi/gosdk): configuration resolution, one-shot credential
exchange, and the session facade. Pure logic is transcribed directly;
stdlib and network effects (http.PostForm, http.NewRequest, the
httpclient Do call) are parameters supplied as an oracle, since their
outcomes are inputs to the logic under verification.
-/

namespace GoSession

/-- The three hardcoded production base URLs (session.go lines 17-21). -/
def BASE_API_URL : String := "https://api.mobingi.com"

def BASE_REGISTRY_URL : String := "https://registry.mobingi.com"

def SESHA3_URL : String := "https://sesha3.mobingi.com"

/-- Modelled from the spec: the external options object for the HTTP client
(pkg/httpclient.Config is referenced by session.go but its sources are not
part of this package); only presence or absence of the pointer matters to
session.go, so the contents are irrelevant here. -/
structure HttpclientConfig where
  deriving Repr, DecidableEq

/-- Go struct Config (session.go lines 32-82). String, int and bool fields
keep Go zero values as defaults; the pointer field becomes an Option. -/
structure Config where
  ClientId : String := ""
  ClientSecret : String := ""
  GrantType : String := ""
  Scope : String := ""
  Username : String := ""
  Password : String := ""
  AccessToken : String := ""
  ApiVersion : Int := 0
  BaseApiUrl : String := ""
  BaseRegistryUrl : String := ""
  Sesha3Url : String := ""
  UseForm : Bool := false
  HttpClientConfig : Option HttpclientConfig := none
  deriving Repr, DecidableEq

attribute [ext] Config

/-- Go struct Session (session.go lines 84-87). -/
structure Session where
  Config : Config
  AccessToken : String
  deriving Repr, DecidableEq

/-- Session.ApiEndpoint (session.go lines 89-96). -/
def Session.ApiEndpoint (s : Session) : String :=
  if s.Config.ApiVersion > -1 then
    s.Config.BaseApiUrl ++ "/v" ++ toString s.Config.ApiVersion
  else
    s.Config.BaseApiUrl

/-- Session.RegistryEndpoint (session.go lines 98-100). -/
def Session.RegistryEndpoint (s : Session) : String :=
  s.Config.BaseRegistryUrl ++ "/v2"

/-- Session.Sesha3Endpoint (session.go lines 102-104). -/
def Session.Sesha3Endpoint (s : Session) : String :=
  s.Config.Sesha3Url

/-- An http.Request as far as session.go observes it: method, URL and
headers. -/
structure Request where
  method : String
  url : String
  headers : List (String × String)
  deriving Repr, DecidableEq

/-- Session.SimpleAuthRequest (session.go lines 106-114). The outcome of
the stdlib call http.NewRequest(m, u, body) is the oracle argument newReq:
none when request construction fails (malformed method or URL), some req
otherwise. The code swallows the error and returns nil, else adds the
Authorization header. -/
def Session.SimpleAuthRequest (s : Session) (newReq : Option Request) :
    Option Request :=
  match newReq with
  | none => none
  | some req =>
    some { req with
           headers := req.headers ++ [("Authorization", "Bearer " ++ s.AccessToken)] }

/-- JSON values as produced by json.Unmarshal into map[string]interface{}.
JSON numbers unmarshal to float64; the claims only exercise integral
numbers, so numbers are abstracted as integers. -/
inductive Jval where
  | str (s : String)
  | num (n : Int)
  | bool (b : Bool)
  | null
  | arr (xs : List Jval)
  | obj (kvs : List (String × Jval))
  deriving Repr

mutual

/-- Go fmt.Sprintf with verb %s applied to an unmarshalled JSON value
(session.go line 233): a string prints as itself; every other dynamic type
falls back to the %!s(TYPE=value) bad-verb form, except slices and maps
which print element-wise. -/
def sprintfS : Jval → String
  | .str s => s
  | .num n => "%!s(float64=" ++ toString n ++ ")"
  | .bool b => "%!s(bool=" ++ (if b then "true" else "false") ++ ")"
  | .null => "%!s(<nil>)"
  | .arr xs => "[" ++ sprintfSList xs ++ "]"
  | .obj kvs => "map[" ++ sprintfSEntries kvs ++ "]"

/-- Element-wise %s printing of a JSON array, space separated. -/
def sprintfSList : List Jval → String
  | [] => ""
  | [x] => sprintfS x
  | x :: y :: xs => sprintfS x ++ " " ++ sprintfSList (y :: xs)

/-- Element-wise %s printing of a JSON object, space separated key:value. -/
def sprintfSEntries : List (String × Jval) → String
  | [] => ""
  | [kv] => kv.1 ++ ":" ++ sprintfS kv.2
  | kv :: kv2 :: kvs => kv.1 ++ ":" ++ sprintfS kv.2 ++ " " ++ sprintfSEntries (kv2 :: kvs)

end

/-- Lookup in the Go map built by json.Unmarshal from a JSON object:
a later duplicate key overwrites an earlier one. -/
def mapGet (kvs : List (String × Jval)) (k : String) : Option Jval :=
  kvs.foldl (fun acc kv => if kv.1 = k then some kv.2 else acc) none

/-- The response body after ioutil.ReadAll, as json.Unmarshal sees it:
either bytes that fail to unmarshal into map[string]interface{} (carrying
the unmarshal error text), or a JSON object. -/
inductive Body where
  | malformed (msg : String)
  | obj (kvs : List (String × Jval))
  deriving Repr

/-- An HTTP response as session.go observes it: resp.StatusCode,
resp.Status (the full status line text, e.g. "404 Not Found"), and the
fully read body. -/
structure RawResponse where
  statusCode : Nat
  status : String
  body : Body
  deriving Repr

/-- The network and stdlib oracle for one credential exchange: the outcome
of http.PostForm (with the body read) on the form path, the error of
http.NewRequest if it fails on the JSON path, and the outcome of the
httpclient Do call (which per the spec returns the response wrapper and
the body bytes together). Except.error carries the Go error text. -/
structure Net where
  formResult : Except String RawResponse
  newRequestErr : Option String
  doResult : Except String RawResponse
  deriving Repr

/-- Go struct authPayload (session.go lines 23-30). Username and Password
are interface{} fields: none models the nil interface. -/
structure AuthPayload where
  ClientId : String := ""
  ClientSecret : String := ""
  GrantType : String := ""
  Scope : String := ""
  Username : Option String := none
  Password : Option String := none
  deriving Repr, DecidableEq

/-- json.Marshal of authPayload (session.go line 197): fields in struct
order, each tagged omitempty. A string field is omitted when empty; an
interface{} field is omitted only when nil (an interface holding the empty
string is still marshalled). -/
def serializeAuthPayload (p : AuthPayload) : List (String × Jval) :=
  (if p.ClientId = "" then [] else [("client_id", Jval.str p.ClientId)]) ++
  (if p.ClientSecret = "" then [] else [("client_secret", Jval.str p.ClientSecret)]) ++
  (if p.GrantType = "" then [] else [("grant_type", Jval.str p.GrantType)]) ++
  (if p.Scope = "" then [] else [("scope", Jval.str p.Scope)]) ++
  (match p.Username with
   | none => []
   | some u => [("username", Jval.str u)]) ++
  (match p.Password with
   | none => []
   | some w => [("password", Jval.str w)])

/-- The authPayload built on the JSON path of getAccessToken (session.go
lines 154-195), on the already scope-defaulted config: explicit
client_credentials or password grants populate the payload including
Scope; otherwise the grant is inferred from Username, the payload leaves
Scope at its zero value, and an empty Password with a non-empty Username
is the error "password cannot be empty". -/
def jsonPayload (c : Config) : Except String AuthPayload :=
  if c.GrantType = "client_credentials" then
    .ok { ClientId := c.ClientId, ClientSecret := c.ClientSecret,
          GrantType := "client_credentials", Scope := c.Scope }
  else if c.GrantType = "password" then
    .ok { ClientId := c.ClientId, ClientSecret := c.ClientSecret,
          GrantType := "password", Username := some c.Username,
          Password := some c.Password, Scope := c.Scope }
  else if c.Username ≠ "" then
    if c.Password = "" then
      .error "password cannot be empty"
    else
      .ok { ClientId := c.ClientId, ClientSecret := c.ClientSecret,
            GrantType := "password", Username := some c.Username,
            Password := some c.Password }
  else
    .ok { ClientId := c.ClientId, ClientSecret := c.ClientSecret,
          GrantType := "client_credentials" }

/-- The url.Values form built on the form path (session.go lines 129-144):
fields are added only under an explicitly matching grant type; any other
grant type posts an empty form. -/
def formFields (c : Config) : List (String × String) :=
  if c.GrantType = "client_credentials" then
    [("client_id", c.ClientId), ("client_secret", c.ClientSecret),
     ("grant_type", c.GrantType), ("scope", c.Scope)]
  else if c.GrantType = "password" then
    [("client_id", c.ClientId), ("client_secret", c.ClientSecret),
     ("grant_type", c.GrantType), ("scope", c.Scope),
     ("username", c.Username), ("password", c.Password)]
  else
    []

/-- The scope defaulting at the top of getAccessToken (session.go lines
124-126): an empty Scope is overwritten with "openid" in the session
config itself. -/
def scopeDefault (c : Config) : Config :=
  if c.Scope = "" then { c with Scope := "openid" } else c

/-- The body handling of getAccessToken (session.go lines 223-234):
unmarshal the body into a map, fail on unmarshal error, fail with
"cannot find access token" when the key is absent, else format the value
with %s. -/
def extractToken (b : Body) : Except String String :=
  match b with
  | .malformed e => .error ("unmarshal failed: " ++ e)
  | .obj kvs =>
    match mapGet kvs "access_token" with
    | none => .error "cannot find access token"
    | some t => .ok (sprintfS t)

/-- The tail of getAccessToken shared by both paths (session.go lines
219-234): require a 2xx status code (integer division of StatusCode by
100), else fail with resp.Status; then extract the token from the body. -/
def finishToken (r : RawResponse) : Except String String :=
  if r.statusCode / 100 ≠ 2 then
    .error r.status
  else
    extractToken r.body

/-- The observable outcome of getAccessToken: the config after the run
(the code mutates s.Config through a pointer), the token or Go error
text, whether a network call (http.PostForm or the Do call) was made, and
the marshalled JSON payload handed to the token endpoint, when one was. -/
structure GATResult where
  config : Config
  result : Except String String
  netCalled : Bool
  payloadSent : Option (List (String × Jval))
  deriving Repr

/-- Session.getAccessToken (session.go lines 116-235) on a session whose
config is cfg, against the oracle net. First Scope is defaulted to
"openid" when empty (a mutation of the shared config). The form path
posts the form and reads the body (the ReadAll error is ignored by the
code). The JSON path builds the payload (possibly failing with
"password cannot be empty"), marshals it, creates the request and runs Do.
Both paths finish with the status check and token extraction. Error texts
follow errors.Wrap: "label: cause". -/
def getAccessToken (cfg : Config) (net : Net) : GATResult :=
  let c := scopeDefault cfg
  if c.UseForm then
    match net.formResult with
    | .error e =>
      { config := c, result := .error ("do failed: " ++ e),
        netCalled := true, payloadSent := none }
    | .ok r =>
      { config := c, result := finishToken r,
        netCalled := true, payloadSent := none }
  else
    match jsonPayload c with
    | .error e =>
      { config := c, result := .error e,
        netCalled := false, payloadSent := none }
    | .ok p =>
      match net.newRequestErr with
      | some e =>
        { config := c, result := .error ("new request failed: " ++ e),
          netCalled := false, payloadSent := none }
      | none =>
        match net.doResult with
        | .error e =>
          { config := c, result := .error ("do failed: " ++ e),
            netCalled := true, payloadSent := some (serializeAuthPayload p) }
        | .ok r =>
          { config := c, result := finishToken r,
            netCalled := true, payloadSent := some (serializeAuthPayload p) }

/-- The response the exchange obtains from the network, when it reaches
one: derived from the same path structure as getAccessToken, for stating
properties of the status check. -/
def netResponseOf (cfg : Config) (net : Net) : Option RawResponse :=
  let c := scopeDefault cfg
  if c.UseForm then
    net.formResult.toOption
  else
    match jsonPayload c with
    | .error _ => none
    | .ok _ =>
      match net.newRequestErr with
      | some _ => none
      | none => net.doResult.toOption

/-- The four environment variables New reads via os.Getenv (session.go
lines 239-242); an unset variable reads as the empty string. -/
structure Env where
  clientIdVar : String := ""
  clientSecretVar : String := ""
  usernameVar : String := ""
  passwordVar : String := ""
  deriving Repr, DecidableEq

/-- The base config New builds first (session.go lines 238-247). -/
def defaultConfig (env : Env) : Config :=
  { ClientId := env.clientIdVar,
    ClientSecret := env.clientSecretVar,
    Username := env.usernameVar,
    Password := env.passwordVar,
    ApiVersion := 3,
    BaseApiUrl := BASE_API_URL,
    BaseRegistryUrl := BASE_REGISTRY_URL,
    Sesha3Url := SESHA3_URL }

/-- Overlay step for ClientId (session.go lines 251-253). -/
def ovClientId (o c : Config) : Config :=
  if o.ClientId ≠ "" then { c with ClientId := o.ClientId } else c

/-- Overlay step for ClientSecret (session.go lines 255-257). -/
def ovClientSecret (o c : Config) : Config :=
  if o.ClientSecret ≠ "" then { c with ClientSecret := o.ClientSecret } else c

/-- Overlay step for AccessToken (session.go lines 259-261). -/
def ovAccessToken (o c : Config) : Config :=
  if o.AccessToken ≠ "" then { c with AccessToken := o.AccessToken } else c

/-- Overlay step for GrantType (session.go lines 263-265). -/
def ovGrantType (o c : Config) : Config :=
  if o.GrantType ≠ "" then { c with GrantType := o.GrantType } else c

/-- Overlay step for Scope (session.go lines 267-269). -/
def ovScope (o c : Config) : Config :=
  if o.Scope ≠ "" then { c with Scope := o.Scope } else c

/-- Overlay step for Username (session.go lines 271-273). -/
def ovUsername (o c : Config) : Config :=
  if o.Username ≠ "" then { c with Username := o.Username } else c

/-- Overlay step for Password (session.go lines 275-277). -/
def ovPassword (o c : Config) : Config :=
  if o.Password ≠ "" then { c with Password := o.Password } else c

/-- Overlay step for ApiVersion (session.go lines 279-281). -/
def ovApiVersion (o c : Config) : Config :=
  if o.ApiVersion ≠ 0 then { c with ApiVersion := o.ApiVersion } else c

/-- Overlay step for BaseApiUrl (session.go lines 283-285). -/
def ovBaseApiUrl (o c : Config) : Config :=
  if o.BaseApiUrl ≠ "" then { c with BaseApiUrl := o.BaseApiUrl } else c

/-- Overlay step for BaseRegistryUrl (session.go lines 287-289). -/
def ovBaseRegistryUrl (o c : Config) : Config :=
  if o.BaseRegistryUrl ≠ "" then { c with BaseRegistryUrl := o.BaseRegistryUrl } else c

/-- Overlay step for Sesha3Url (session.go lines 291-293). -/
def ovSesha3Url (o c : Config) : Config :=
  if o.Sesha3Url ≠ "" then { c with Sesha3Url := o.Sesha3Url } else c

/-- Overlay step for UseForm (session.go lines 295-297). -/
def ovUseForm (o c : Config) : Config :=
  if o.UseForm then { c with UseForm := o.UseForm } else c

/-- Overlay step for HttpClientConfig (session.go lines 299-301). -/
def ovHttpClientConfig (o c : Config) : Config :=
  match o.HttpClientConfig with
  | some hc => { c with HttpClientConfig := some hc }
  | none => c

/-- The overlay block of New (session.go lines 250-302): each field of the
first override replaces the default in sequence when it is a non-empty
string, a non-zero int, true, or a non-nil pointer. -/
def overlayConfig (c0 : Config) (o : Config) : Config :=
  let c1 := ovClientId o c0
  let c2 := ovClientSecret o c1
  let c3 := ovAccessToken o c2
  let c4 := ovGrantType o c3
  let c5 := ovScope o c4
  let c6 := ovUsername o c5
  let c7 := ovPassword o c6
  let c8 := ovApiVersion o c7
  let c9 := ovBaseApiUrl o c8
  let c10 := ovBaseRegistryUrl o c9
  let c11 := ovSesha3Url o c10
  let c12 := ovUseForm o c11
  ovHttpClientConfig o c12

/-- Configuration resolution in New (session.go lines 237-303): start
from the environment defaults and constants, then overlay the first
variadic argument when it is present and non-nil. -/
def resolveConfig (env : Env) (cnf : List (Option Config)) : Config :=
  match cnf with
  | some o :: _ => overlayConfig (defaultConfig env) o
  | _ => defaultConfig env

/-- The configuration resolution contract in the words of the spec: start
from the environment-variable defaults, the three hardcoded production
base URLs and default API version 3, then overlay exactly those fields of
the first override that are non-empty strings, non-zero integers, true
booleans or non-nil pointers; overrides past the first are ignored. -/
def resolveConfigSpec (env : Env) (cnf : List (Option Config)) : Config :=
  let base := defaultConfig env
  match cnf.head? with
  | some (some o) =>
    { ClientId := if o.ClientId ≠ "" then o.ClientId else base.ClientId,
      ClientSecret := if o.ClientSecret ≠ "" then o.ClientSecret else base.ClientSecret,
      GrantType := if o.GrantType ≠ "" then o.GrantType else base.GrantType,
      Scope := if o.Scope ≠ "" then o.Scope else base.Scope,
      Username := if o.Username ≠ "" then o.Username else base.Username,
      Password := if o.Password ≠ "" then o.Password else base.Password,
      AccessToken := if o.AccessToken ≠ "" then o.AccessToken else base.AccessToken,
      ApiVersion := if o.ApiVersion ≠ 0 then o.ApiVersion else base.ApiVersion,
      BaseApiUrl := if o.BaseApiUrl ≠ "" then o.BaseApiUrl else base.BaseApiUrl,
      BaseRegistryUrl := if o.BaseRegistryUrl ≠ "" then o.BaseRegistryUrl else base.BaseRegistryUrl,
      Sesha3Url := if o.Sesha3Url ≠ "" then o.Sesha3Url else base.Sesha3Url,
      UseForm := if o.UseForm then o.UseForm else base.UseForm,
      HttpClientConfig := if o.HttpClientConfig.isSome then o.HttpClientConfig else base.HttpClientConfig }
  | _ => base

/-- The observable outcome of New: the session, the Go error text when
construction failed, and whether any network call was made. -/
structure NewResult where
  session : Session
  err : Option String
  netCalled : Bool
  deriving Repr, DecidableEq

/-- New (session.go lines 237-318): resolve the config; if an access
token is already present adopt it with no exchange; otherwise run the
credential exchange, wrapping a failure as
"get access token failed: cause" around a session with an empty token.
The session shares the config mutated by the exchange. -/
def New (env : Env) (cnf : List (Option Config)) (net : Net) : NewResult :=
  let c := resolveConfig env cnf
  if c.AccessToken ≠ "" then
    { session := { Config := c, AccessToken := c.AccessToken },
      err := none, netCalled := false }
  else
    let g := getAccessToken c net
    match g.result with
    | .error e =>
      { session := { Config := g.config, AccessToken := "" },
        err := some ("get access token failed: " ++ e),
        netCalled := g.netCalled }
    | .ok t =>
      { session := { Config := g.config, AccessToken := t },
        err := none, netCalled := g.netCalled }

/-- An oracle whose exchange, if ever reached, yields a 2xx JSON response
carrying access_token "T". -/
def netOkToken : Net :=
  { formResult := .error "unused",
    newRequestErr := none,
    doResult := .ok { statusCode := 200, status := "200 OK",
                      body := .obj [("access_token", .str "T")] } }

/-- An oracle whose network calls all fail with transport error "boom". -/
def netFailTransport : Net :=
  { formResult := .error "boom",
    newRequestErr := none,
    doResult := .error "boom" }

/-- A config override selecting the password grant explicitly while
leaving Password empty. -/
def cfgExplicitPassword : Config :=
  { GrantType := "password", Username := "u" }

/-- A config using the form-encoded path. -/
def cfgForm : Config :=
  { UseForm := true }

/-- A mocked non-2xx response. -/
def respNotFound : RawResponse :=
  { statusCode := 404, status := "404 Not Found", body := .obj [] }

/-- A mocked 2xx response carrying access_token "X". -/
def respOkToken : RawResponse :=
  { statusCode := 200, status := "200 OK",
    body := .obj [("access_token", .str "X")] }

/-- An oracle answering the form post with the mocked 404 response. -/
def netForm404 : Net :=
  { formResult := .ok respNotFound, newRequestErr := none,
    doResult := .error "unused" }

/-- An oracle answering the form post with the mocked 2xx response. -/
def netFormOk : Net :=
  { formResult := .ok respOkToken, newRequestErr := none,
    doResult := .error "unused" }

/-! Helper lemmas shared by the claim theorems. -/

lemma scopeDefault_ClientId (c : Config) : (scopeDefault c).ClientId = c.ClientId := by
  unfold scopeDefault; split <;> rfl

lemma scopeDefault_ClientSecret (c : Config) : (scopeDefault c).ClientSecret = c.ClientSecret := by
  unfold scopeDefault; split <;> rfl

lemma scopeDefault_GrantType (c : Config) : (scopeDefault c).GrantType = c.GrantType := by
  unfold scopeDefault; split <;> rfl

lemma scopeDefault_Username (c : Config) : (scopeDefault c).Username = c.Username := by
  unfold scopeDefault; split <;> rfl

lemma scopeDefault_Password (c : Config) : (scopeDefault c).Password = c.Password := by
  unfold scopeDefault; split <;> rfl

lemma scopeDefault_UseForm (c : Config) : (scopeDefault c).UseForm = c.UseForm := by
  unfold scopeDefault; split <;> rfl

lemma scopeDefault_Scope_ne (c : Config) : (scopeDefault c).Scope ≠ "" := by
  unfold scopeDefault
  split
  · simp
  · next h => exact h

lemma ovClientId_eq (o c : Config) :
    ovClientId o c =
      { c with ClientId := if o.ClientId ≠ "" then o.ClientId else c.ClientId } := by
  unfold ovClientId
  by_cases h : o.ClientId ≠ "" <;> simp [h]

lemma ovClientSecret_eq (o c : Config) :
    ovClientSecret o c =
      { c with ClientSecret := if o.ClientSecret ≠ "" then o.ClientSecret else c.ClientSecret } := by
  unfold ovClientSecret
  by_cases h : o.ClientSecret ≠ "" <;> simp [h]

lemma ovAccessToken_eq (o c : Config) :
    ovAccessToken o c =
      { c with AccessToken := if o.AccessToken ≠ "" then o.AccessToken else c.AccessToken } := by
  unfold ovAccessToken
  by_cases h : o.AccessToken ≠ "" <;> simp [h]

lemma ovGrantType_eq (o c : Config) :
    ovGrantType o c =
      { c with GrantType := if o.GrantType ≠ "" then o.GrantType else c.GrantType } := by
  unfold ovGrantType
  by_cases h : o.GrantType ≠ "" <;> simp [h]

lemma ovScope_eq (o c : Config) :
    ovScope o c =
      { c with Scope := if o.Scope ≠ "" then o.Scope else c.Scope } := by
  unfold ovScope
  by_cases h : o.Scope ≠ "" <;> simp [h]

lemma ovUsername_eq (o c : Config) :
    ovUsername o c =
      { c with Username := if o.Username ≠ "" then o.Username else c.Username } := by
  unfold ovUsername
  by_cases h : o.Username ≠ "" <;> simp [h]

lemma ovPassword_eq (o c : Config) :
    ovPassword o c =
      { c with Password := if o.Password ≠ "" then o.Password else c.Password } := by
  unfold ovPassword
  by_cases h : o.Password ≠ "" <;> simp [h]

lemma ovApiVersion_eq (o c : Config) :
    ovApiVersion o c =
      { c with ApiVersion := if o.ApiVersion ≠ 0 then o.ApiVersion else c.ApiVersion } := by
  unfold ovApiVersion
  by_cases h : o.ApiVersion ≠ 0 <;> simp [h]

lemma ovBaseApiUrl_eq (o c : Config) :
    ovBaseApiUrl o c =
      { c with BaseApiUrl := if o.BaseApiUrl ≠ "" then o.BaseApiUrl else c.BaseApiUrl } := by
  unfold ovBaseApiUrl
  by_cases h : o.BaseApiUrl ≠ "" <;> simp [h]

lemma ovBaseRegistryUrl_eq (o c : Config) :
    ovBaseRegistryUrl o c =
      { c with BaseRegistryUrl := if o.BaseRegistryUrl ≠ "" then o.BaseRegistryUrl else c.BaseRegistryUrl } := by
  unfold ovBaseRegistryUrl
  by_cases h : o.BaseRegistryUrl ≠ "" <;> simp [h]

lemma ovSesha3Url_eq (o c : Config) :
    ovSesha3Url o c =
      { c with Sesha3Url := if o.Sesha3Url ≠ "" then o.Sesha3Url else c.Sesha3Url } := by
  unfold ovSesha3Url
  by_cases h : o.Sesha3Url ≠ "" <;> simp [h]

lemma ovUseForm_eq (o c : Config) :
    ovUseForm o c =
      { c with UseForm := if o.UseForm then o.UseForm else c.UseForm } := by
  unfold ovUseForm
  by_cases h : o.UseForm = true <;> simp [h]

lemma ovHttpClientConfig_eq (o c : Config) :
    ovHttpClientConfig o c =
      { c with HttpClientConfig :=
          if o.HttpClientConfig.isSome then o.HttpClientConfig else c.HttpClientConfig } := by
  unfold ovHttpClientConfig
  cases h : o.HttpClientConfig <;> simp

/-- The config coming out of getAccessToken is always the scope-defaulted
input config, on every branch. -/
lemma getAccessToken_config (cfg : Config) (net : Net) :
    (getAccessToken cfg net).config = scopeDefault cfg := by
  unfold getAccessToken
  dsimp only
  split
  · split <;> rfl
  · split
    · rfl
    · split
      · rfl
      · split <;> rfl

/-- Whenever the exchange reaches a response, its result is determined by
that response through finishToken. -/
lemma getAccessToken_result_of_response (cfg : Config) (net : Net) (r : RawResponse)
    (hr : netResponseOf cfg net = some r) :
    (getAccessToken cfg net).result = finishToken r := by
  unfold netResponseOf at hr
  unfold getAccessToken
  by_cases hUF : (scopeDefault cfg).UseForm = true
  · cases hfr : net.formResult with
    | error e => simp [hUF, hfr, Except.toOption] at hr
    | ok rr =>
      simp [hUF, hfr, Except.toOption] at hr
      simp [hUF, hfr, hr]
  · cases hp : jsonPayload (scopeDefault cfg) with
    | error e => simp [hUF, hp] at hr
    | ok p =>
      cases hnr : net.newRequestErr with
      | some e => simp [hUF, hp, hnr] at hr
      | none =>
        cases hdo : net.doResult with
        | error e => simp [hUF, hp, hnr, hdo, Except.toOption] at hr
        | ok rr =>
          simp [hUF, hp, hnr, hdo, Except.toOption] at hr
          simp [hUF, hp, hnr, hdo, hr]

/-- The marshalled payload carries a scope key exactly when the payload
Scope string is non-empty, by the omitempty rule. -/
lemma scope_key_serialize (p : AuthPayload) :
    ("scope" ∈ (serializeAuthPayload p).map Prod.fst) ↔ p.Scope ≠ "" := by
  unfold serializeAuthPayload
  by_cases h1 : p.ClientId = "" <;>
  by_cases h2 : p.ClientSecret = "" <;>
  by_cases h3 : p.GrantType = "" <;>
  by_cases h4 : p.Scope = "" <;>
  cases hu : p.Username <;>
  cases hw : p.Password <;>
    simp [h1, h2, h3, h4]

/-- On the JSON path with a well-formed payload and a working
http.NewRequest, the marshalled payload is handed to the Do call whatever
its outcome. -/
lemma getAccessToken_payloadSent (cfg : Config) (net : Net) (p : AuthPayload)
    (hUF : cfg.UseForm = false) (hnr : net.newRequestErr = none)
    (hp : jsonPayload (scopeDefault cfg) = .ok p) :
    (getAccessToken cfg net).payloadSent = some (serializeAuthPayload p) := by
  unfold getAccessToken
  cases hdo : net.doResult <;>
    simp [scopeDefault_UseForm, hUF, hp, hnr, hdo]

/-- C3: ApiEndpoint returns BaseApiUrl ++ "/v" ++ ApiVersion when the
version is nonnegative and BaseApiUrl unchanged when it is negative; in
particular version 3 with base "https://api.mobingi.com" gives exactly
"https://api.mobingi.com/v3", and version -1 returns the base URL
unchanged. -/
theorem c3_api_endpoint :
    (∀ s : Session,
      s.ApiEndpoint =
        if 0 ≤ s.Config.ApiVersion then
          s.Config.BaseApiUrl ++ "/v" ++ toString s.Config.ApiVersion
        else
          s.Config.BaseApiUrl) ∧
    Session.ApiEndpoint
      { Config := { ApiVersion := 3, BaseApiUrl := "https://api.mobingi.com" },
        AccessToken := "" } = "https://api.mobingi.com/v3" ∧
    Session.ApiEndpoint
      { Config := { ApiVersion := -1, BaseApiUrl := "https://api.mobingi.com" },
        AccessToken := "" } = "https://api.mobingi.com" := by
  refine ⟨fun s => ?_, by decide, by decide⟩
  unfold Session.ApiEndpoint
  by_cases h : 0 ≤ s.Config.ApiVersion
  · rw [if_pos (by omega), if_pos h]
  · rw [if_neg (by omega), if_neg h]

/-- C9: the credential exchange mutates the session config by defaulting
Scope to openid exactly when it was empty, and leaves every other config
field unchanged. -/
theorem c9_scope_frame :
    ∀ (cfg : Config) (net : Net),
      (getAccessToken cfg net).config =
        if cfg.Scope = "" then { cfg with Scope := "openid" } else cfg := by
  intro cfg net
  rw [getAccessToken_config]
  rfl

/-- C8: SimpleAuthRequest returns none exactly when the underlying
request construction failed (the error is swallowed, never propagated),
and otherwise yields a request carrying the header Authorization with
value Bearer followed by the session access token. -/
theorem c8_simple_auth_request :
    ∀ (s : Session) (nr : Option Request),
      (s.SimpleAuthRequest nr = none ↔ nr = none) ∧
      (∀ r : Request, nr = some r →
        ∃ req : Request, s.SimpleAuthRequest nr = some req ∧
          ("Authorization", "Bearer " ++ s.AccessToken) ∈ req.headers) := by
  intro s nr
  constructor
  · cases nr <;> simp [Session.SimpleAuthRequest]
  · intro r hr
    subst hr
    refine ⟨_, rfl, ?_⟩
    simp [Session.SimpleAuthRequest]

theorem c8_simple_auth_request_witness :
    ∃ req : Request,
      Session.SimpleAuthRequest { Config := {}, AccessToken := "tok" }
        (some { method := "GET", url := "https://x", headers := [] }) = some req ∧
      ("Authorization", "Bearer " ++ "tok") ∈ req.headers :=
  (c8_simple_auth_request { Config := {}, AccessToken := "tok" }
    (some { method := "GET", url := "https://x", headers := [] })).2
    { method := "GET", url := "https://x", headers := [] } rfl

/-- C2: when the resolved config carries a non-empty AccessToken T, New
adopts it directly: the session token equals T, the error is nil and no
network call is made. -/
theorem c2_preset_token :
    ∀ (env : Env) (cnf : List (Option Config)) (net : Net) (T : String),
      (resolveConfig env cnf).AccessToken = T → T ≠ "" →
      New env cnf net =
        { session := { Config := resolveConfig env cnf, AccessToken := T },
          err := none, netCalled := false } := by
  intro env cnf net T hT hne
  simp only [New]
  rw [hT, if_pos hne]

theorem c2_preset_token_witness :
    ((resolveConfig {} [some { AccessToken := "T" }]).AccessToken = "T" ∧
      ("T" : String) ≠ "") ∧
    New {} [some { AccessToken := "T" }] netFailTransport =
      { session := { Config := resolveConfig {} [some { AccessToken := "T" }],
                     AccessToken := "T" },
        err := none, netCalled := false } :=
  ⟨⟨by decide, by decide⟩,
   c2_preset_token {} [some { AccessToken := "T" }] netFailTransport "T"
     (by decide) (by decide)⟩

/-- C1 counterexample: a resolved config whose grant type is explicitly
"password" with a non-empty Username and an empty Password does not fail
with "password cannot be empty": the code builds the payload in the
explicit-grant branch, makes the network call, and here even succeeds. -/
theorem c1_explicit_password_counterexample :
    (resolveConfig {} [some cfgExplicitPassword]).GrantType = "password" ∧
    (resolveConfig {} [some cfgExplicitPassword]).Username ≠ "" ∧
    (resolveConfig {} [some cfgExplicitPassword]).Password = "" ∧
    (New {} [some cfgExplicitPassword] netOkToken).err = none ∧
    (New {} [some cfgExplicitPassword] netOkToken).netCalled = true := by
  refine ⟨by decide, by decide, by decide, by decide, by decide⟩

/-- C1 amended: only on the JSON path with an inferred grant type (UseForm
false and GrantType neither "client_credentials" nor "password") does a
non-empty Username with an empty Password make construction fail with
"password cannot be empty" under the wrap "get access token failed",
with no network request made. -/
theorem c1_inferred_password_empty :
    ∀ (env : Env) (cnf : List (Option Config)) (net : Net),
      (resolveConfig env cnf).AccessToken = "" →
      (resolveConfig env cnf).UseForm = false →
      (resolveConfig env cnf).GrantType ≠ "client_credentials" →
      (resolveConfig env cnf).GrantType ≠ "password" →
      (resolveConfig env cnf).Username ≠ "" →
      (resolveConfig env cnf).Password = "" →
      (New env cnf net).err =
        some "get access token failed: password cannot be empty" ∧
      (New env cnf net).netCalled = false := by
  intro env cnf net hAT hUF hG1 hG2 hU hP
  have hp : jsonPayload (scopeDefault (resolveConfig env cnf)) =
      .error "password cannot be empty" := by
    unfold jsonPayload
    simp [scopeDefault_GrantType, scopeDefault_Username, scopeDefault_Password,
          hG1, hG2, hU, hP]
  have hres : getAccessToken (resolveConfig env cnf) net =
      { config := scopeDefault (resolveConfig env cnf),
        result := .error "password cannot be empty",
        netCalled := false, payloadSent := none } := by
    unfold getAccessToken
    simp [scopeDefault_UseForm, hUF, hp]
  simp only [New]
  rw [hAT, if_neg (by simp)]
  rw [hres]
  exact ⟨rfl, rfl⟩

theorem c1_inferred_password_empty_witness :
    ((resolveConfig { usernameVar := "u" } []).AccessToken = "" ∧
     (resolveConfig { usernameVar := "u" } []).UseForm = false ∧
     (resolveConfig { usernameVar := "u" } []).GrantType ≠ "client_credentials" ∧
     (resolveConfig { usernameVar := "u" } []).GrantType ≠ "password" ∧
     (resolveConfig { usernameVar := "u" } []).Username ≠ "" ∧
     (resolveConfig { usernameVar := "u" } []).Password = "") ∧
    (New { usernameVar := "u" } [] netFailTransport).err =
      some "get access token failed: password cannot be empty" ∧
    (New { usernameVar := "u" } [] netFailTransport).netCalled = false :=
  ⟨⟨by decide, by decide, by decide, by decide, by decide, by decide⟩,
   c1_inferred_password_empty { usernameVar := "u" } [] netFailTransport
     (by decide) (by decide) (by decide) (by decide) (by decide) (by decide)⟩

/-- C5 counterexample: on exchange failure the session config is not the
resolved configuration verbatim: the exchange first defaulted Scope to
"openid", so with a resolved Scope of "" the two configs differ. -/
theorem c5_mutated_config_counterexample :
    (New {} [] netFailTransport).err =
      some "get access token failed: do failed: boom" ∧
    (New {} [] netFailTransport).session.AccessToken = "" ∧
    (New {} [] netFailTransport).session.Config ≠ resolveConfig {} [] := by
  refine ⟨rfl, rfl, by decide⟩

/-- C5 amended: on exchange failure New returns a session whose config is
the resolved configuration with Scope defaulted to "openid" when it was
empty, whose token is empty, together with the error wrapped as
"get access token failed: cause". -/
theorem c5_exchange_failure :
    ∀ (env : Env) (cnf : List (Option Config)) (net : Net) (e : String),
      (resolveConfig env cnf).AccessToken = "" →
      (getAccessToken (resolveConfig env cnf) net).result = Except.error e →
      New env cnf net =
        { session := { Config := scopeDefault (resolveConfig env cnf),
                       AccessToken := "" },
          err := some ("get access token failed: " ++ e),
          netCalled := (getAccessToken (resolveConfig env cnf) net).netCalled } := by
  intro env cnf net e hAT hres
  simp only [New]
  rw [hAT, if_neg (by simp)]
  simp [hres, getAccessToken_config]

theorem c5_exchange_failure_witness :
    ((resolveConfig {} []).AccessToken = "" ∧
     (getAccessToken (resolveConfig {} []) netFailTransport).result =
       Except.error "do failed: boom") ∧
    New {} [] netFailTransport =
      { session := { Config := scopeDefault (resolveConfig {} []),
                     AccessToken := "" },
        err := some ("get access token failed: " ++ "do failed: boom"),
        netCalled := (getAccessToken (resolveConfig {} []) netFailTransport).netCalled } :=
  ⟨⟨by decide, rfl⟩,
   c5_exchange_failure {} [] netFailTransport "do failed: boom" (by decide) rfl⟩

/-- C6: when the exchange reaches an HTTP response, a status code outside
the 2xx range fails the exchange with resp.Status (the HTTP status text)
as the error, while a 2xx status passes the check, the outcome then being
determined purely by the response body. -/
theorem c6_status_check :
    ∀ (cfg : Config) (net : Net) (r : RawResponse),
      netResponseOf cfg net = some r →
      (r.statusCode / 100 ≠ 2 →
        (getAccessToken cfg net).result = Except.error r.status) ∧
      (r.statusCode / 100 = 2 →
        (getAccessToken cfg net).result = extractToken r.body) := by
  intro cfg net r hr
  rw [getAccessToken_result_of_response cfg net r hr]
  constructor
  · intro h
    unfold finishToken
    rw [if_pos h]
  · intro h
    unfold finishToken
    rw [if_neg (not_not_intro h)]

theorem c6_status_check_witness :
    netResponseOf cfgForm netForm404 = some respNotFound ∧
    (getAccessToken cfgForm netForm404).result = Except.error "404 Not Found" :=
  ⟨rfl, (c6_status_check cfgForm netForm404 respNotFound rfl).1 (by decide)⟩

/-- C7: for a 2xx response whose body is a JSON object, a missing
access_token key fails the exchange with "cannot find access token",
while a present key yields, with no error, the %s string representation
of its value whatever its JSON type. -/
theorem c7_token_extraction :
    ∀ (cfg : Config) (net : Net) (r : RawResponse) (kvs : List (String × Jval)),
      netResponseOf cfg net = some r →
      r.statusCode / 100 = 2 →
      r.body = Body.obj kvs →
      (mapGet kvs "access_token" = none →
        (getAccessToken cfg net).result = Except.error "cannot find access token") ∧
      (∀ v : Jval, mapGet kvs "access_token" = some v →
        (getAccessToken cfg net).result = Except.ok (sprintfS v)) := by
  intro cfg net r kvs hr h2 hb
  rw [getAccessToken_result_of_response cfg net r hr]
  unfold finishToken
  rw [if_neg (not_not_intro h2), hb]
  constructor
  · intro hnone
    simp only [extractToken]
    rw [hnone]
  · intro v hv
    simp only [extractToken]
    rw [hv]

theorem c7_token_extraction_witness :
    netResponseOf cfgForm netFormOk = some respOkToken ∧
    mapGet [("access_token", Jval.str "X")] "access_token" = some (Jval.str "X") ∧
    (getAccessToken cfgForm netFormOk).result = Except.ok "X" :=
  ⟨rfl, rfl,
   (c7_token_extraction cfgForm netFormOk respOkToken
     [("access_token", Jval.str "X")] rfl (by decide) rfl).2 (Jval.str "X") rfl⟩

/-- C4: configuration resolution equals the spec contract: environment
defaults plus the three production base URLs and API version 3, then the
first override overlaid field-wise on non-empty strings, non-zero
integers, true booleans and non-nil pointers, with later overrides
ignored. -/
theorem c4_resolution :
    ∀ (env : Env) (cnf : List (Option Config)),
      resolveConfig env cnf = resolveConfigSpec env cnf := by
  intro env cnf
  match cnf with
  | [] => rfl
  | none :: _ => rfl
  | some o :: rest =>
    show overlayConfig (defaultConfig env) o = _
    simp only [overlayConfig, resolveConfigSpec, List.head?,
               ovClientId_eq, ovClientSecret_eq, ovAccessToken_eq,
               ovGrantType_eq, ovScope_eq, ovUsername_eq, ovPassword_eq,
               ovApiVersion_eq, ovBaseApiUrl_eq, ovBaseRegistryUrl_eq,
               ovSesha3Url_eq, ovUseForm_eq, ovHttpClientConfig_eq]

/-- C10: on the JSON path with an inferred grant type the marshalled
payload sent to the token endpoint contains no scope key at all, even
though the config Scope was just defaulted to a non-empty value; the
scope key is included when the grant type is explicitly
client_credentials or password. -/
theorem c10_inferred_payload_omits_scope :
    ∀ (cfg : Config) (net : Net),
      cfg.UseForm = false →
      net.newRequestErr = none →
      ((cfg.GrantType ≠ "client_credentials" → cfg.GrantType ≠ "password" →
        (cfg.Username = "" ∨ cfg.Password ≠ "") →
        ∃ fs, (getAccessToken cfg net).payloadSent = some fs ∧
          "scope" ∉ fs.map Prod.fst ∧
          (getAccessToken cfg net).config.Scope ≠ "") ∧
       ((cfg.GrantType = "client_credentials" ∨ cfg.GrantType = "password") →
        ∃ fs, (getAccessToken cfg net).payloadSent = some fs ∧
          "scope" ∈ fs.map Prod.fst)) := by
  intro cfg net hUF hnr
  constructor
  · intro hG1 hG2 hUP
    by_cases hU : cfg.Username = ""
    · have hp : jsonPayload (scopeDefault cfg) =
          .ok { ClientId := (scopeDefault cfg).ClientId,
                ClientSecret := (scopeDefault cfg).ClientSecret,
                GrantType := "client_credentials" } := by
        unfold jsonPayload
        simp [scopeDefault_GrantType, scopeDefault_Username, hG1, hG2, hU]
      refine ⟨_, getAccessToken_payloadSent cfg net _ hUF hnr hp, ?_, ?_⟩
      · rw [scope_key_serialize]
        simp
      · rw [getAccessToken_config]
        exact scopeDefault_Scope_ne cfg
    · have hW : cfg.Password ≠ "" := by
        rcases hUP with h | h
        · exact absurd h hU
        · exact h
      have hp : jsonPayload (scopeDefault cfg) =
          .ok { ClientId := (scopeDefault cfg).ClientId,
                ClientSecret := (scopeDefault cfg).ClientSecret,
                GrantType := "password",
                Username := some (scopeDefault cfg).Username,
                Password := some (scopeDefault cfg).Password } := by
        unfold jsonPayload
        simp [scopeDefault_GrantType, scopeDefault_Username, scopeDefault_Password,
              hG1, hG2, hU, hW]
      refine ⟨_, getAccessToken_payloadSent cfg net _ hUF hnr hp, ?_, ?_⟩
      · rw [scope_key_serialize]
        simp
      · rw [getAccessToken_config]
        exact scopeDefault_Scope_ne cfg
  · intro hG
    rcases hG with hG | hG
    · have hp : jsonPayload (scopeDefault cfg) =
          .ok { ClientId := (scopeDefault cfg).ClientId,
                ClientSecret := (scopeDefault cfg).ClientSecret,
                GrantType := "client_credentials",
                Scope := (scopeDefault cfg).Scope } := by
        unfold jsonPayload
        simp [scopeDefault_GrantType, hG]
      refine ⟨_, getAccessToken_payloadSent cfg net _ hUF hnr hp, ?_⟩
      rw [scope_key_serialize]
      exact scopeDefault_Scope_ne cfg
    · have hp : jsonPayload (scopeDefault cfg) =
          .ok { ClientId := (scopeDefault cfg).ClientId,
                ClientSecret := (scopeDefault cfg).ClientSecret,
                GrantType := "password",
                Username := some (scopeDefault cfg).Username,
                Password := some (scopeDefault cfg).Password,
                Scope := (scopeDefault cfg).Scope } := by
        unfold jsonPayload
        simp [scopeDefault_GrantType, hG]
      refine ⟨_, getAccessToken_payloadSent cfg net _ hUF hnr hp, ?_⟩
      rw [scope_key_serialize]
      exact scopeDefault_Scope_ne cfg

theorem c10_inferred_payload_omits_scope_witness :
    (({} : Config).UseForm = false ∧ netOkToken.newRequestErr = none) ∧
    (∃ fs, (getAccessToken {} netOkToken).payloadSent = some fs ∧
      "scope" ∉ fs.map Prod.fst ∧
      (getAccessToken {} netOkToken).config.Scope ≠ "") :=
  ⟨⟨rfl, rfl⟩,
   (c10_inferred_payload_omits_scope {} netOkToken rfl rfl).1
     (by decide) (by decide) (Or.inl rfl)⟩

end GoSession
